import Mathlib

/-!
A shallow embedding of the watch & notification engine of `sat-bot`
(src/database.rs, src/util.rs, src/n2yo.rs, src/commands/watch.rs).

Modelling conventions:
* machine integers (`i64`, `usize` timestamps, snowflake ids) are modelled as
  unbounded `Int`/`Nat`: every value the program handles (UTC second
  timestamps, Discord ids) is far below any wrap boundary, so two's-complement
  wrap never matters for the modelled arithmetic;
* `f64` elevations are modelled as `Rat`: the program only ever compares
  elevations (`>=`, `>`, `==`), never computes with them, and IEEE comparison
  on the finite decimal literals involved agrees with rational comparison;
* external effects (the N2YO fetch, the Discord `send_message`, the wall
  clock read `current_utc()`, the JSON save) are passed in explicitly: the
  fetch and the send as functions in an environment record, the single clock
  read as a field of that record, and each `save()` call is recorded in an
  output trace so that "what was committed" is observable;
* a Rust `?` on an `Err` is the `.error` branch of `Except`; a Rust
  `.unwrap()` on `None` is a distinguished `panic` outcome.
-/

deriving instance DecidableEq for Except

namespace SatBot

/-- UTC second timestamps (`usize`/`i64` in the source, modelled unbounded). -/
abbrev Timestamp := Int

/-- `database.rs`: `Location`. `Snowflake(u64)` ids are `Nat`. -/
structure Location where
  name : String
  creator : Nat
  latitude : Rat
  longitude : Rat
  altitude : Rat
  deriving DecidableEq, Repr

/-- `database.rs`: `WatchedSatellite`. `previous_notifications` is the
notification history of `(start, end)` timestamp pairs. -/
structure WatchedSatellite where
  satellite_id : Nat
  name : String
  location : String
  channel : Nat
  watcher : Nat
  locale : String
  min_max_elevation : Rat
  previous_notifications : List (Timestamp × Timestamp)
  deriving DecidableEq, Repr

/-- `database.rs`: `DatabaseContents`, the full persisted snapshot. -/
structure DatabaseContents where
  locations : List Location
  watched_satellites : List WatchedSatellite
  deriving DecidableEq, Repr

/-- `n2yo.rs`: `SatellitePassInfo` (serde names `satid`, `satname`, ...). -/
structure SatellitePassInfo where
  id : Nat
  name : String
  transaction_count : Nat
  passes_count : Nat
  deriving DecidableEq, Repr

/-- `n2yo.rs`: `SatellitePass`. Azimuth/compass fields are carried for
faithfulness though the watch engine never reads them. -/
structure SatellitePass where
  start_azimuth : Rat
  start_azimuth_compass : String
  start_utc : Timestamp
  max_azimuth : Rat
  max_azimuth_compass : String
  max_elevation : Rat
  max_utc : Timestamp
  end_azimuth : Rat
  end_azimuth_compass : String
  end_utc : Timestamp
  deriving DecidableEq, Repr

/-- `n2yo.rs`: `SatellitePasses` (after `From<JsonSatellitePasses>`, which
replaces an absent pass list by the empty list). -/
structure SatellitePasses where
  info : SatellitePassInfo
  passes : List SatellitePass
  deriving DecidableEq, Repr

/-- `util.rs`: `are_within_10_seconds(a, b)` =
`chrono::Duration::seconds(b - a).num_seconds().abs() < 10`. -/
def are_within_10_seconds (a b : Int) : Bool :=
  decide ((b - a).natAbs < 10)

/-- The duplicate test inlined at `watch.rs:234-241`: some history entry
`(start, end)` has both endpoints within 10 seconds of the candidate pass.
The spec names this `is_duplicate(history, candidate_window)`. -/
def is_duplicate (history : List (Timestamp × Timestamp))
    (startUtc endUtc : Timestamp) : Bool :=
  history.any fun p =>
    are_within_10_seconds p.1 startUtc && are_within_10_seconds p.2 endUtc

/-- The elevation filter at `watch.rs:233`:
`pass.max_elevation >= watched_satellite.min_max_elevation`. -/
def qualifies (pass : SatellitePass) (minMaxElevation : Rat) : Bool :=
  decide (pass.max_elevation ≥ minMaxElevation)

/-- The retention filter at `watch.rs:295-303`: keep an entry `(start, end)`
iff `current_utc - 24*60*60 < start && current_utc - 24*60*60 < end`. -/
def prune_history (now : Int) (history : List (Timestamp × Timestamp)) :
    List (Timestamp × Timestamp) :=
  history.filter fun p =>
    decide (now - 24 * 60 * 60 < p.1) && decide (now - 24 * 60 * 60 < p.2)

/-- The semantic payload of one Discord embed built at `watch.rs:251-265`:
the fetched satellite name and location in the title, the pass window and its
peak elevation in the description. Locale-dependent time formatting
(`util::utc_to_local`, `util::duration_between`) is presentation only and is
abstracted away. -/
structure PassEmbed where
  satellite_name : String
  location_name : String
  start_utc : Timestamp
  end_utc : Timestamp
  max_elevation : Rat
  deriving DecidableEq, Repr

/-- One invocation of `http.send_message` at `watch.rs:274`: the subscription
being processed (whose `channel` the message goes to) and the embeds of the
message body. -/
structure SendRecord where
  sub : WatchedSatellite
  embeds : List PassEmbed
  deriving DecidableEq, Repr

/-- How a cycle of `notify_of_new_passes` can fail: a `?` on the fetch
(`watch.rs:224`), a `?` on the send (`watch.rs:275`), or a panic from an
`.unwrap()` on `None` (`watch.rs:220` for a missing location,
`watch.rs:284` for a missing staged satellite id). -/
inductive CycleError where
  | fetchError
  | sendError
  | panic
  deriving DecidableEq, Repr

/-- The external world of one cycle: the N2YO fetch
(`n2yo_api.get_satellite_passes(satellite_id, location, days, min_max_elevation)`),
the Discord send (`http.send_message(channel, embeds)`), and the value
returned by the one `util::current_utc()` call at `watch.rs:289` (read after
all subscriptions are processed, just before pruning). -/
structure Env where
  fetch : Nat → Location → Nat → Rat → Except Unit SatellitePasses
  send : Nat → List PassEmbed → Except Unit Unit
  current_utc : Int

/-- The `(satellite_id, start_utc, end_utc)` triples pushed onto the local
`successful_notifications` vector at `watch.rs:244-248`: qualifying passes
that are not duplicates of the subscription's history. -/
def stagedOf (ws : WatchedSatellite) (ps : SatellitePasses) :
    List (Nat × Timestamp × Timestamp) :=
  ps.passes.filterMap fun pass =>
    if qualifies pass ws.min_max_elevation
        && !(is_duplicate ws.previous_notifications pass.start_utc pass.end_utc)
    then some (ws.satellite_id, pass.start_utc, pass.end_utc)
    else none

/-- The embeds added to the outbound message at `watch.rs:251-265`: one per
qualifying, non-duplicate pass (the `continue` in the duplicate branch skips
`add_embed` as well). -/
def embedsOf (ws : WatchedSatellite) (ps : SatellitePasses) : List PassEmbed :=
  ps.passes.filterMap fun pass =>
    if qualifies pass ws.min_max_elevation
        && !(is_duplicate ws.previous_notifications pass.start_utc pass.end_utc)
    then some ⟨ps.info.name, ws.location, pass.start_utc, pass.end_utc,
      pass.max_elevation⟩
    else none

/-- One iteration of the subscription loop, `watch.rs:211-276`: resolve the
location (`.find(..).unwrap()` — `none` is a panic), fetch the passes (`?`),
skip wholly if zero passes were returned, otherwise build the message and
send it (`?`). Returns the send invocations made (the send is invoked even
when it then fails) and, on success, the staged notification triples. -/
def processOne (env : Env) (locations : List Location)
    (ws : WatchedSatellite) :
    List SendRecord × Except CycleError (List (Nat × Timestamp × Timestamp)) :=
  match locations.find? fun l => l.name == ws.location with
  | none => ([], .error .panic)
  | some loc =>
    match env.fetch ws.satellite_id loc 1 ws.min_max_elevation with
    | .error _ => ([], .error .fetchError)
    | .ok passes =>
      if passes.passes.length == 0 then ([], .ok [])
      else
        match env.send ws.channel (embedsOf ws passes) with
        | .error _ => ([⟨ws, embedsOf ws passes⟩], .error .sendError)
        | .ok _ => ([⟨ws, embedsOf ws passes⟩], .ok (stagedOf ws passes))

/-- The whole subscription loop of `watch.rs:211-276`, in snapshot order.
A `?` propagating out of one iteration ends the loop: the sends already made
are kept in the trace, the error is returned, and the remaining
subscriptions are never reached. -/
def processSubscriptions (env : Env) (locations : List Location) :
    List WatchedSatellite →
    List SendRecord × Except CycleError (List (Nat × Timestamp × Timestamp))
  | [] => ([], .ok [])
  | ws :: rest =>
    match processOne env locations ws with
    | (sends, .error e) => (sends, .error e)
    | (sends, .ok staged) =>
      (sends ++ (processSubscriptions env locations rest).1,
        (processSubscriptions env locations rest).2.map (staged ++ ·))

/-- The commit lookup of `watch.rs:278-287`: find the FIRST subscription with
the staged satellite id (`iter_mut().find(..)`) and push the window onto its
history; `none` models the `.unwrap()` panic when no subscription matches. -/
def pushToFirst (sid : Nat) (w : Timestamp × Timestamp) :
    List WatchedSatellite → Option (List WatchedSatellite)
  | [] => none
  | ws :: rest =>
    if ws.satellite_id == sid then
      some ({ ws with
        previous_notifications := ws.previous_notifications ++ [w] } :: rest)
    else
      (pushToFirst sid w rest).map (ws :: ·)

/-- The commit loop of `watch.rs:278-287`: append every staged triple, in
order, to the first subscription carrying its satellite id. -/
def commitStaged :
    List (Nat × Timestamp × Timestamp) → List WatchedSatellite →
    Option (List WatchedSatellite)
  | [], subs => some subs
  | (sid, s, e) :: rest, subs =>
    match pushToFirst sid (s, e) subs with
    | none => none
    | some subs' => commitStaged rest subs'

/-- The prune pass of `watch.rs:289-304`: every subscription's history is
filtered with the same `current_utc` value. -/
def pruneAll (now : Int) (subs : List WatchedSatellite) :
    List WatchedSatellite :=
  subs.map fun ws =>
    { ws with
      previous_notifications := prune_history now ws.previous_notifications }

/-- What one call of `notify_of_new_passes` did: the sends it made, the
snapshots it passed to `database.save()` (the save is modelled as always
succeeding), and its return value. The function holds the database write
lock from entry to exit, so the whole cycle is one write acquisition. -/
structure CycleResult where
  sends : List SendRecord
  saves : List DatabaseContents
  outcome : Except CycleError Unit
  deriving DecidableEq, Repr

/-- `watch.rs:203-309`, `notify_of_new_passes`: loop over the subscriptions
(fetch, decide, send), then append every staged window to the first
subscription with its satellite id, then prune every history with the single
`current_utc()` read, then `save()` once. Any propagated error skips
everything after the loop, so nothing is saved. -/
def notify_of_new_passes (env : Env) (db : DatabaseContents) : CycleResult :=
  match processSubscriptions env db.locations db.watched_satellites with
  | (sends, .error e) => ⟨sends, [], .error e⟩
  | (sends, .ok staged) =>
    match commitStaged staged db.watched_satellites with
    | none => ⟨sends, [], .error .panic⟩
    | some subs' =>
      let pruned := pruneAll env.current_utc subs'
      ⟨sends, [{ db with watched_satellites := pruned }], .ok ()⟩

/-- The snapshot on disk after the cycle: the last saved snapshot, or the
pre-cycle snapshot when the cycle saved nothing. -/
def committedDb (env : Env) (db : DatabaseContents) : DatabaseContents :=
  (notify_of_new_passes env db).saves.getLast?.getD db

/-- How `watch_satellite` (`watch.rs:19-98`) can fail: the elevation
validation at line 29, the duplicate-subscription check at line 37, the
location lookup at line 53, or the `?` on the upstream name lookup at
line 63. Every failure happens before the push/save at lines 69-79. -/
inductive WatchError where
  | validation
  | alreadyWatched
  | noSuchLocation
  | nameLookup
  deriving DecidableEq, Repr

/-- `watch.rs:19-98`, `watch_satellite`: reject `min_max_elevation > 90.0 ||
min_max_elevation == 0.0`; reject an existing subscription with the same
`(satellite_id, location, min_max_elevation, channel)`; resolve the location
by name; fetch the display name (`get_name` stands for the awaited
`get_name_from_norad_id` result); then push the new subscription (with empty
history) and save. The returned snapshot is the saved one. -/
def watch_satellite (db : DatabaseContents) (satellite_id : Nat)
    (location : String) (min_max_elevation : Rat) (channel author : Nat)
    (locale : String) (get_name : Except Unit String) :
    Except WatchError DatabaseContents :=
  if min_max_elevation > 90 ∨ min_max_elevation = 0 then
    .error .validation
  else if db.watched_satellites.any fun ws =>
      ws.satellite_id == satellite_id && ws.location == location
        && ws.min_max_elevation == min_max_elevation
        && ws.channel == channel then
    .error .alreadyWatched
  else
    match db.locations.find? fun l => l.name == location with
    | none => .error .noSuchLocation
    | some loc =>
      match get_name with
      | .error _ => .error .nameLookup
      | .ok name =>
        .ok { db with watched_satellites := db.watched_satellites ++
          [⟨satellite_id, name, loc.name, channel, author, locale,
            min_max_elevation, []⟩] }

/-- How `unwatch_satellite` (`watch.rs:138-185`) can fail: no matching
subscription (line 159), a caller who is not the watcher (line 161), or the
out-of-bounds index into the shortened list at line 175 (a Rust panic). -/
inductive UnwatchError where
  | noSuchWatched
  | notWatcher
  | panicIndexOutOfBounds
  deriving DecidableEq, Repr

/-- The outcome of `unwatch_satellite`: the snapshot left committed on disk
and either the satellite name rendered into the confirmation message or the
error. On the index panic the removal was already saved (line 168 precedes
line 175), so the committed snapshot is the shortened one. -/
structure UnwatchResult where
  db : DatabaseContents
  outcome : Except UnwatchError String
  deriving DecidableEq, Repr

/-- `watch.rs:138-185`, `unwatch_satellite`: find the position of the
subscription matching `(satellite_id, channel, location)`; require the
caller to be its watcher; remove it and save; then render the confirmation
message from `watched_satellites[index]` of the SHORTENED list — `none`
there models the Rust index panic. -/
def unwatch_satellite (db : DatabaseContents) (satellite_id : Nat)
    (channel : Nat) (location : String) (author : Nat) : UnwatchResult :=
  match db.watched_satellites.findIdx? fun ws =>
      ws.satellite_id == satellite_id && ws.channel == channel
        && ws.location == location with
  | none => ⟨db, .error .noSuchWatched⟩
  | some index =>
    match db.watched_satellites[index]? with
    | none => ⟨db, .error .panicIndexOutOfBounds⟩
    | some found =>
      if author ≠ found.watcher then ⟨db, .error .notWatcher⟩
      else
        let remaining := db.watched_satellites.eraseIdx index
        let db' := { db with watched_satellites := remaining }
        match remaining[index]? with
        | none => ⟨db', .error .panicIndexOutOfBounds⟩
        | some shown => ⟨db', .ok shown.name⟩

/-! Concrete fixtures: small stores and environments used to evaluate the
engine on specific snapshots (stubbed external collaborators). -/

/-- A stored location named `"a"`. -/
def loc_a : Location := ⟨"a", 1, 0, 0, 0⟩

/-- A stored location named `"b"`. -/
def loc_b : Location := ⟨"b", 1, 0, 0, 0⟩

/-- A predicted pass with the given window and a 35° peak elevation. -/
def passAt (s e : Timestamp) : SatellitePass :=
  ⟨0, "N", s, 0, "N", 35, s + 100, 0, "N", e⟩

/-- Upstream info header for a satellite id. -/
def infoFor (sid : Nat) : SatellitePassInfo := ⟨sid, "SAT", 0, 1⟩

/-- Subscription to satellite 1 at location `"a"`, channel 10, watcher 20,
30° threshold, empty history. -/
def subA : WatchedSatellite := ⟨1, "SAT", "a", 10, 20, "en-GB", 30, []⟩

/-- Subscription to satellite 2 at location `"b"`, channel 11. -/
def subB : WatchedSatellite := ⟨2, "SAT", "b", 11, 20, "en-GB", 30, []⟩

/-- Environment whose fetch always yields one qualifying pass and whose send
always fails. -/
def envC1 : Env :=
  ⟨fun sid _ _ _ => .ok ⟨infoFor sid, [passAt 1000 1300]⟩,
   fun _ _ => .error (), 1000⟩

/-- Store with one location and one subscription. -/
def dbC1 : DatabaseContents := ⟨[loc_a], [subA]⟩

/-- Environment whose fetch fails for satellite 1 and succeeds with one
qualifying pass for every other satellite; send succeeds. -/
def envC2 : Env :=
  ⟨fun sid _ _ _ =>
      if sid == 1 then .error ()
      else .ok ⟨infoFor sid, [passAt 1000 1300]⟩,
   fun _ _ => .ok (), 1000⟩

/-- Store with both locations and both subscriptions, satellite 1 first. -/
def dbC2 : DatabaseContents := ⟨[loc_a, loc_b], [subA, subB]⟩

/-- The same store holding only the satellite-2 subscription. -/
def dbOnlyB : DatabaseContents := ⟨[loc_a, loc_b], [subB]⟩

/-- A subscription naming a location (`"zzz"`) that is not in the store. -/
def subBad : WatchedSatellite := ⟨3, "SAT", "zzz", 12, 20, "en-GB", 30, []⟩

/-- Environment with a healthy fetch and send. -/
def envC3 : Env :=
  ⟨fun sid _ _ _ => .ok ⟨infoFor sid, [passAt 1000 1300]⟩,
   fun _ _ => .ok (), 1000⟩

/-- Store where the dangling subscription precedes a healthy one. -/
def dbC3 : DatabaseContents := ⟨[loc_b], [subBad, subB]⟩

/-- The same store with only the healthy subscription. -/
def dbC3' : DatabaseContents := ⟨[loc_b], [subB]⟩

/-- Subscription to satellite 1 at location `"a"`, channel 10. -/
def subA1 : WatchedSatellite := ⟨1, "SAT", "a", 10, 20, "en-GB", 30, []⟩

/-- A second subscription to the SAME satellite 1, at location `"b"`,
channel 11. -/
def subB1 : WatchedSatellite := ⟨1, "SAT", "b", 11, 20, "en-GB", 30, []⟩

/-- Environment whose fetch returns no passes at location `"a"` and one
qualifying pass at any other location; send succeeds. -/
def envC4 : Env :=
  ⟨fun sid loc _ _ =>
      if loc.name == "a" then .ok ⟨infoFor sid, []⟩
      else .ok ⟨infoFor sid, [passAt 1000 1300]⟩,
   fun _ _ => .ok (), 1000⟩

/-- Store with two subscriptions sharing satellite id 1 at different
locations and channels. -/
def dbC4 : DatabaseContents := ⟨[loc_a, loc_b], [subA1, subB1]⟩

/-- Subscription whose history already records the window `(1000, 1300)`. -/
def subDup : WatchedSatellite :=
  ⟨1, "SAT", "a", 10, 20, "en-GB", 30, [(1000, 1300)]⟩

/-- Environment whose fetch returns exactly one pass, within 10 seconds of
the recorded window `(1000, 1300)`; send succeeds. -/
def envC7 : Env :=
  ⟨fun sid _ _ _ => .ok ⟨infoFor sid, [passAt 1002 1298]⟩,
   fun _ _ => .ok (), 1000⟩

/-- Store with the already-notified subscription. -/
def dbC7 : DatabaseContents := ⟨[loc_a], [subDup]⟩

/-- Subscription with one history entry `(10, 20)`, about a day old. -/
def subOld : WatchedSatellite := ⟨1, "SAT", "a", 10, 20, "en-GB", 30, [(10, 20)]⟩

/-- Environment for a cycle that started at time 86400 and whose single
`current_utc()` read (after processing, just before the prune) returns
86500; the fetch returns no passes. -/
def envC8 : Env :=
  ⟨fun sid _ _ _ => .ok ⟨infoFor sid, []⟩, fun _ _ => .ok (), 86500⟩

/-- Store with the one aging subscription. -/
def dbC8 : DatabaseContents := ⟨[loc_a], [subOld]⟩

/-- Store with location `"a"` and no subscriptions. -/
def dbC9 : DatabaseContents := ⟨[loc_a], []⟩

/-- The subscription `watch_satellite` stores for a −5° threshold. -/
def wsC9 : WatchedSatellite := ⟨1, "SAT", "a", 10, 20, "en-GB", -5, []⟩

/-- Store whose only subscription (satellite 1, channel 10, location `"a"`,
watcher 20) occupies the last position. -/
def dbC10 : DatabaseContents := ⟨[loc_a], [subA]⟩

/-- A further subscription on the same channel with another satellite id,
named distinctly. -/
def subOther : WatchedSatellite := ⟨9, "OTHER", "a", 10, 20, "en-GB", 30, []⟩

/-- Store where the matched subscription is first and another follows it. -/
def dbC10b : DatabaseContents := ⟨[loc_a], [subA, subOther]⟩

/-! Helper lemmas shared by the claim theorems. -/

/-- `are_within_10_seconds a b` is the 10-second tolerance on `|a - b|`. -/
theorem are_within_10_seconds_iff (a b : Int) :
    are_within_10_seconds a b = true ↔ |a - b| < 10 := by
  simp only [are_within_10_seconds, decide_eq_true_eq]
  rw [abs_lt]
  omega

/-- A window literally recorded in the history is a duplicate of itself. -/
theorem is_duplicate_of_mem (h : List (Timestamp × Timestamp))
    (s e : Timestamp) (hmem : (s, e) ∈ h) : is_duplicate h s e = true := by
  simp only [is_duplicate, List.any_eq_true]
  exact ⟨(s, e), hmem, by simp [are_within_10_seconds]⟩

/-- Membership in a pruned history, unfolded. -/
theorem mem_prune_history (now : Int) (h : List (Timestamp × Timestamp))
    (p : Timestamp × Timestamp) :
    p ∈ prune_history now h ↔
      p ∈ h ∧ now - 24 * 60 * 60 < p.1 ∧ now - 24 * 60 * 60 < p.2 := by
  simp only [prune_history, List.mem_filter, Bool.and_eq_true, decide_eq_true_eq]

/-- Every embed the engine builds for a subscription is a qualifying pass
that is NOT a duplicate of that subscription's history (and in particular
its window is not literally recorded there). -/
theorem embedsOf_not_duplicate (ws : WatchedSatellite) (ps : SatellitePasses) :
    ∀ pe ∈ embedsOf ws ps,
      is_duplicate ws.previous_notifications pe.start_utc pe.end_utc = false ∧
      (pe.start_utc, pe.end_utc) ∉ ws.previous_notifications := by
  intro pe hpe
  simp only [embedsOf, List.mem_filterMap] at hpe
  obtain ⟨pass, hpass, hif⟩ := hpe
  by_cases hc : (qualifies pass ws.min_max_elevation
      && !(is_duplicate ws.previous_notifications pass.start_utc pass.end_utc))
      = true
  · rw [if_pos hc] at hif
    obtain ⟨hq, hnd⟩ := Bool.and_eq_true_iff.mp hc
    cases hif
    simp only [Bool.not_eq_true'] at hnd
    refine ⟨hnd, fun hm => ?_⟩
    rw [is_duplicate_of_mem _ _ _ hm] at hnd
    exact Bool.true_eq_false.mp hnd
  · rw [if_neg hc] at hif
    cases hif

/-- Every send `processOne` makes is for the subscription being processed,
with the embeds the engine built for it from some fetched pass list. -/
theorem processOne_sends (env : Env) (locs : List Location)
    (ws : WatchedSatellite) :
    ∀ r ∈ (processOne env locs ws).1, r.sub = ws ∧
      ∃ ps : SatellitePasses, r.embeds = embedsOf ws ps := by
  intro r hr
  unfold processOne at hr
  split at hr
  · simp at hr
  · split at hr
    · simp at hr
    · split at hr
      · simp at hr
      · split at hr
        · simp only [List.mem_singleton] at hr
          subst hr
          exact ⟨rfl, _, rfl⟩
        · simp only [List.mem_singleton] at hr
          subst hr
          exact ⟨rfl, _, rfl⟩

/-- Every send of a cycle's loop is for one of the iterated subscriptions,
with the embeds the engine built for that subscription. -/
theorem processSubscriptions_sends (env : Env) (locs : List Location) :
    ∀ subs : List WatchedSatellite,
      ∀ r ∈ (processSubscriptions env locs subs).1, r.sub ∈ subs ∧
        ∃ ps : SatellitePasses, r.embeds = embedsOf r.sub ps := by
  intro subs
  induction subs with
  | nil => intro r hr; simp [processSubscriptions] at hr
  | cons ws rest ih =>
    intro r hr
    unfold processSubscriptions at hr
    split at hr
    · rename_i sends e heq
      have h1 : r ∈ (processOne env locs ws).1 := by rw [heq]; exact hr
      obtain ⟨hsub, hps⟩ := processOne_sends env locs ws r h1
      exact ⟨by rw [hsub]; exact List.mem_cons_self ws rest, by rwa [hsub]⟩
    · rename_i sends staged heq
      simp only [List.mem_append] at hr
      rcases hr with hl | hrr
      · have h1 : r ∈ (processOne env locs ws).1 := by rw [heq]; exact hl
        obtain ⟨hsub, hps⟩ := processOne_sends env locs ws r h1
        exact ⟨by rw [hsub]; exact List.mem_cons_self ws rest, by rwa [hsub]⟩
      · obtain ⟨hsub, hps⟩ := ih r hrr
        exact ⟨List.mem_cons_of_mem ws hsub, hps⟩

/-- Membership in the result of the whole-snapshot prune. -/
theorem mem_pruneAll (now : Int) (subs : List WatchedSatellite) :
    ∀ ws ∈ pruneAll now subs, ∃ ws₀ ∈ subs,
      ws = { ws₀ with
        previous_notifications :=
          prune_history now ws₀.previous_notifications } := by
  intro ws hws
  simp only [pruneAll, List.mem_map] at hws
  obtain ⟨ws₀, h0, heq⟩ := hws
  exact ⟨ws₀, h0, heq.symm⟩

/-! Claim theorems. -/

/-- C1: when delivering a subscription's notification batch fails during a
cycle, nothing is saved (the `?` skips the commit), so the committed
snapshot is exactly the pre-cycle snapshot; re-running the cycle on the
committed snapshot behaves identically (every undelivered pass is
re-detected); and no window of any batch sent this cycle is a duplicate of
— or literally present in — the history its subscription carries in the
committed snapshot. -/
theorem delivery_failure_commits_nothing (env : Env) (db : DatabaseContents)
    (h : (notify_of_new_passes env db).outcome = .error .sendError) :
    (notify_of_new_passes env db).saves = [] ∧
    committedDb env db = db ∧
    notify_of_new_passes env (committedDb env db)
      = notify_of_new_passes env db ∧
    ∀ r ∈ (notify_of_new_passes env db).sends, ∀ pe ∈ r.embeds,
      is_duplicate r.sub.previous_notifications pe.start_utc pe.end_utc
        = false ∧
      (pe.start_utc, pe.end_utc) ∉ r.sub.previous_notifications := by
  rcases hps : processSubscriptions env db.locations db.watched_satellites
    with ⟨sends, res⟩
  cases res with
  | ok staged =>
    exfalso
    simp only [notify_of_new_passes, hps] at h
    rcases hcs : commitStaged staged db.watched_satellites with _ | subs' <;>
      simp [hcs] at h
  | error e =>
    have hn : notify_of_new_passes env db = ⟨sends, [], .error e⟩ := by
      simp only [notify_of_new_passes, hps]
    have hcd : committedDb env db = db := by
      unfold committedDb; rw [hn]; rfl
    refine ⟨by rw [hn], hcd, by rw [hcd], ?_⟩
    intro r hr pe hpe
    rw [hn] at hr
    have h1 :
        r ∈ (processSubscriptions env db.locations db.watched_satellites).1 := by
      rw [hps]; exact hr
    obtain ⟨-, ps, hemb⟩ :=
      processSubscriptions_sends env db.locations db.watched_satellites r h1
    rw [hemb] at hpe
    exact embedsOf_not_duplicate r.sub ps pe hpe

/-- C1 witness: a concrete cycle whose send fails, and the commit that did
not happen. -/
theorem delivery_failure_commits_nothing_witness :
    (notify_of_new_passes envC1 dbC1).outcome = .error .sendError ∧
    committedDb envC1 dbC1 = dbC1 :=
  ⟨by decide, (delivery_failure_commits_nothing envC1 dbC1 (by decide)).2.1⟩

/-- C2 counterexample: with two subscriptions, a fetch failure for the
first leaves the second entirely unprocessed — no send is made at all and
nothing is saved — even though the same environment notifies the second
subscription when it stands alone. The claim that the cycle proceeds to
every remaining subscription is false. -/
theorem fetch_failure_does_not_spare_cycle_cex :
    (notify_of_new_passes envC2 dbC2).sends = [] ∧
    (notify_of_new_passes envC2 dbC2).outcome = .error .fetchError ∧
    (notify_of_new_passes envC2 dbC2).saves = [] ∧
    (notify_of_new_passes envC2 dbOnlyB).sends ≠ [] := by decide

/-- C2 amended: a failure at one subscription — upstream fetch or batch
delivery — ABORTS the whole cycle: the loop stops at the failing
subscription (its result is the cycle's, independent of the remaining
subscriptions), and an erroring cycle saves nothing, leaving the committed
snapshot untouched (so all work, including other subscriptions', is
retried next cycle). -/
theorem subscription_error_aborts_cycle :
    (∀ (env : Env) (locs : List Location) (ws : WatchedSatellite)
        (rest : List WatchedSatellite) (e : CycleError),
      (processOne env locs ws).2 = .error e →
        processSubscriptions env locs (ws :: rest)
          = ((processOne env locs ws).1, .error e)) ∧
    (∀ (env : Env) (db : DatabaseContents) (e : CycleError),
      (notify_of_new_passes env db).outcome = .error e →
        (notify_of_new_passes env db).saves = [] ∧
        committedDb env db = db) := by
  constructor
  · intro env locs ws rest e h
    rcases hpo : processOne env locs ws with ⟨sends, res⟩
    cases res with
    | error e' =>
      rw [hpo] at h
      cases h
      simp only [processSubscriptions, hpo]
    | ok staged => rw [hpo] at h; cases h
  · intro env db e h
    rcases hps : processSubscriptions env db.locations db.watched_satellites
      with ⟨sends, res⟩
    cases res with
    | ok staged =>
      rcases hcs : commitStaged staged db.watched_satellites with _ | subs'
      · have hn : notify_of_new_passes env db = ⟨sends, [], .error .panic⟩ := by
          simp only [notify_of_new_passes, hps, hcs]
        exact ⟨by rw [hn], by unfold committedDb; rw [hn]; rfl⟩
      · exfalso
        simp only [notify_of_new_passes, hps, hcs] at h
        simp at h
    | error e' =>
      have hn : notify_of_new_passes env db = ⟨sends, [], .error e'⟩ := by
        simp only [notify_of_new_passes, hps]
      exact ⟨by rw [hn], by unfold committedDb; rw [hn]; rfl⟩

/-- C3 counterexample: a subscription whose location name resolves to no
stored location makes the whole cycle panic (the `.unwrap()` at
`watch.rs:220`): nothing is sent, not even for the healthy subscription
after it — which the same environment does notify when it stands alone.
The claim that the subscription is skipped and the cycle continues is
false. -/
theorem missing_location_skip_cex :
    notify_of_new_passes envC3 dbC3 = ⟨[], [], .error .panic⟩ ∧
    (notify_of_new_passes envC3 dbC3').sends ≠ [] := by decide

/-- C3 amended: when the loop reaches a subscription whose location name
does not resolve, the cycle PANICS: from that subscription on nothing is
processed, and when it is first in the snapshot the cycle makes no sends,
saves nothing and ends with the panic outcome. -/
theorem missing_location_panics (env : Env) (locs : List Location)
    (ws : WatchedSatellite) (rest : List WatchedSatellite)
    (hloc : locs.find? (fun l => l.name == ws.location) = none) :
    processSubscriptions env locs (ws :: rest) = ([], .error .panic) ∧
    ∀ db : DatabaseContents, db.locations = locs →
      db.watched_satellites = ws :: rest →
      notify_of_new_passes env db = ⟨[], [], .error .panic⟩ := by
  have hpo : processOne env locs ws = ([], .error .panic) := by
    unfold processOne; rw [hloc]
  have hp : processSubscriptions env locs (ws :: rest)
      = ([], .error .panic) := by
    simp only [processSubscriptions, hpo]
  refine ⟨hp, fun db hl hs => ?_⟩
  simp only [notify_of_new_passes, hl, hs, hp]

/-- C3 witness: the dangling subscription of the counterexample store
makes the loop panic. -/
theorem missing_location_panics_witness :
    processSubscriptions envC3 [loc_b] [subBad, subB] = ([], .error .panic) :=
  (missing_location_panics envC3 [loc_b] subBad [subB] (by decide)).1

/-- C4: with two subscriptions sharing `satellite_id = 1` at different
locations and channels, the one window fetched — and sent — for the SECOND
subscription (location `"b"`, channel 11) is committed to the history of
the FIRST (location `"a"`), whose own fetch returned nothing, while the
second subscription's history stays empty: the commit loop at
`watch.rs:278-287` matches staged windows by satellite id only and `find`
stops at the first match. The claim that every staged window is appended
to exactly its own subscription's history is false on such snapshots. -/
theorem staged_window_committed_to_first_matching_id :
    (notify_of_new_passes envC4 dbC4).sends
      = [⟨subB1, [⟨"SAT", "b", 1000, 1300, 35⟩]⟩] ∧
    committedDb envC4 dbC4
      = ⟨[loc_a, loc_b],
         [{ subA1 with previous_notifications := [(1000, 1300)] }, subB1]⟩ := by
  decide

/-- C5: `is_duplicate(history, candidate)` is true exactly when some
history entry `(s, e)` has both `|s - candidate.start| < 10` and
`|e - candidate.end| < 10` (seconds). -/
theorem is_duplicate_iff (history : List (Timestamp × Timestamp))
    (s e : Timestamp) :
    is_duplicate history s e = true ↔
      ∃ p ∈ history, |p.1 - s| < 10 ∧ |p.2 - e| < 10 := by
  simp only [is_duplicate, List.any_eq_true, Bool.and_eq_true,
    are_within_10_seconds_iff]

/-- C6: `prune(history, now)` retains exactly the entries with
`now - start < 24h` and `now - end < 24h`; its result is a subset of the
input, and no entry with `now - end ≥ 24h` survives. -/
theorem prune_history_exact (now : Int) (h : List (Timestamp × Timestamp)) :
    (∀ s e : Timestamp, (s, e) ∈ prune_history now h ↔
        ((s, e) ∈ h ∧ now - s < 24 * 60 * 60 ∧ now - e < 24 * 60 * 60)) ∧
    (∀ p ∈ prune_history now h, p ∈ h) ∧
    (∀ s e : Timestamp,
      24 * 60 * 60 ≤ now - e → (s, e) ∉ prune_history now h) := by
  refine ⟨fun s e => ?_, fun p hp => ?_, fun s e hold hmem => ?_⟩
  · rw [mem_prune_history]
    constructor
    · rintro ⟨hm, h1, h2⟩; exact ⟨hm, by omega, by omega⟩
    · rintro ⟨hm, h1, h2⟩; exact ⟨hm, by omega, by omega⟩
  · exact ((mem_prune_history now h p).mp hp).1
  · have := ((mem_prune_history now h (s, e)).mp hmem).2
    omega

/-- C6 witness: a fresh entry survives a concrete prune. -/
theorem prune_history_exact_witness :
    ((1000 : Int), (1300 : Int)) ∈ prune_history 2000 [(1000, 1300)] :=
  ((prune_history_exact 2000 [(1000, 1300)]).1 1000 1300).mpr
    ⟨by decide, by decide, by decide⟩

/-- C7 counterexample: a subscription whose only fetched pass is a
duplicate (within tolerance of its recorded window) stages nothing, yet
the sink IS invoked — with an empty embed batch — and the committed
snapshot is unchanged. The claim that the sink is invoked only when a
notification was staged is false. -/
theorem sink_invoked_with_empty_batch_cex :
    (notify_of_new_passes envC7 dbC7).sends = [⟨subDup, []⟩] ∧
    committedDb envC7 dbC7 = dbC7 := by decide

/-- C7 amended: the sink is invoked for a subscription exactly when its
location resolves and the fetch succeeds with a NONEMPTY pass list —
regardless of whether any notification was staged (when every pass is a
duplicate or below threshold, an empty message is still sent); only a
zero-pass fetch, a failed fetch or an unresolved location suppress the
send. -/
theorem sink_invoked_iff_fetch_nonempty (env : Env) (locs : List Location)
    (ws : WatchedSatellite) :
    (processOne env locs ws).1 ≠ [] ↔
      ∃ loc ps, locs.find? (fun l => l.name == ws.location) = some loc ∧
        env.fetch ws.satellite_id loc 1 ws.min_max_elevation = .ok ps ∧
        ps.passes ≠ [] := by
  rcases hfind : locs.find? (fun l => l.name == ws.location) with _ | loc
  · simp [processOne, hfind]
  · rcases hfetch : env.fetch ws.satellite_id loc 1 ws.min_max_elevation
      with u | ps
    · simp [processOne, hfind, hfetch]
    · by_cases hlen : (ps.passes.length == 0) = true
      · have hnil : ps.passes = [] := by
          simpa using List.length_eq_zero.mp (by simpa using hlen)
        simp [processOne, hfind, hfetch, hlen, hnil]
      · have hne : ps.passes ≠ [] := by
          intro hcon
          exact hlen (by simp [hcon])
        rcases hsend : env.send ws.channel (embedsOf ws ps) with u | u
        · simp only [processOne, hfind, hfetch, hlen, hsend]
          constructor
          · intro _; exact ⟨loc, ps, by simp [hfind], by simp [hfetch], hne⟩
          · intro _; simp
        · simp only [processOne, hfind, hfetch, hlen, hsend]
          constructor
          · intro _; exact ⟨loc, ps, by simp [hfind], by simp [hfetch], hne⟩
          · intro _; simp

/-- C8 counterexample: a cycle that began at time 86400 whose single clock
read (made AFTER all subscriptions were processed) returned 86500 prunes
the entry `(10, 20)` out of the committed history, although pruning with
the cycle's start time 86400 retains that entry. The claim that prune uses
the cycle's start time as `now` is false: it uses the later
after-processing read. -/
theorem prune_now_after_processing_cex :
    committedDb envC8 dbC8
      = ⟨[loc_a], [{ subOld with previous_notifications := [] }]⟩ ∧
    prune_history 86400 subOld.previous_notifications
      = subOld.previous_notifications ∧
    (86400 : Int) ≤ envC8.current_utc := by decide

/-- C8 amended: after all subscriptions are processed, every history is
pruned with ONE `now` value — the single `current_utc()` read made at that
point (not the cycle's start time) — and the pruned snapshot is committed
in a single save under the cycle's one write acquisition (at most one save
per cycle; every committed entry is younger than 24h relative to that
read). -/
theorem prune_uses_commit_clock_single_save (env : Env)
    (db : DatabaseContents) :
    (notify_of_new_passes env db).saves.length ≤ 1 ∧
    ∀ d ∈ (notify_of_new_passes env db).saves,
      d.locations = db.locations ∧
      (∃ staged subs',
        (processSubscriptions env db.locations db.watched_satellites).2
          = .ok staged ∧
        commitStaged staged db.watched_satellites = some subs' ∧
        d.watched_satellites = pruneAll env.current_utc subs') ∧
      ∀ ws ∈ d.watched_satellites, ∀ p ∈ ws.previous_notifications,
        env.current_utc - p.1 < 24 * 60 * 60 ∧
        env.current_utc - p.2 < 24 * 60 * 60 := by
  rcases hps : processSubscriptions env db.locations db.watched_satellites
    with ⟨sends, res⟩
  cases res with
  | error e =>
    have hn : notify_of_new_passes env db = ⟨sends, [], .error e⟩ := by
      simp only [notify_of_new_passes, hps]
    rw [hn]
    exact ⟨by simp, by simp⟩
  | ok staged =>
    rcases hcs : commitStaged staged db.watched_satellites with _ | subs'
    · have hn : notify_of_new_passes env db = ⟨sends, [], .error .panic⟩ := by
        simp only [notify_of_new_passes, hps, hcs]
      rw [hn]
      exact ⟨by simp, by simp⟩
    · have hn : notify_of_new_passes env db
          = ⟨sends,
             [{ db with
                watched_satellites := pruneAll env.current_utc subs' }],
             .ok ()⟩ := by
        simp only [notify_of_new_passes, hps, hcs]
      rw [hn]
      refine ⟨by simp, ?_⟩
      intro d hd
      simp only [List.mem_singleton] at hd
      subst hd
      refine ⟨rfl, ⟨staged, subs', rfl, hcs, rfl⟩, ?_⟩
      intro ws hws p hp
      obtain ⟨ws₀, -, hws0⟩ := mem_pruneAll env.current_utc subs' ws hws
      rw [hws0] at hp
      have h2 :=
        ((mem_prune_history env.current_utc ws₀.previous_notifications p).mp
          hp).2
      exact ⟨by omega, by omega⟩

/-- C9: the validation only rejects `min_max_elevation > 90` or `== 0`; it
ACCEPTS the out-of-range value −5 and stores a subscription whose
threshold lies outside `(0, 90]`, so the claimed invariant on stored
subscriptions fails. (The values 91 and 0 are rejected before any state
mutation, as the claim says.) -/
theorem watch_accepts_negative_elevation :
    watch_satellite dbC9 1 "a" (-5) 10 20 "en-GB" (.ok "SAT")
      = .ok ⟨[loc_a], [wsC9]⟩ ∧
    ¬ (0 < wsC9.min_max_elevation ∧ wsC9.min_max_elevation ≤ 90) ∧
    watch_satellite dbC9 1 "a" 91 10 20 "en-GB" (.ok "SAT")
      = .error .validation ∧
    watch_satellite dbC9 1 "a" 0 10 20 "en-GB" (.ok "SAT")
      = .error .validation := by decide

/-- C10: removing a matched subscription that occupies the LAST position
(here, the only one) and then rendering the confirmation from
`watched_satellites[index]` of the shortened list goes out of bounds — a
panic — after the removal was already saved; and even when the index stays
in bounds (matched subscription first of two), the message renders the
name of the WRONG subscription, the one now occupying the removed
position. -/
theorem unwatch_last_subscription_panics :
    unwatch_satellite dbC10 1 10 "a" 20
      = ⟨⟨[loc_a], []⟩, .error .panicIndexOutOfBounds⟩ ∧
    unwatch_satellite dbC10b 1 10 "a" 20
      = ⟨⟨[loc_a], [subOther]⟩, .ok "OTHER"⟩ := by decide

end SatBot
